import Mathlib

/-!
Verification of the chartly repository's subplot-grid planner and
overlay/grid composition protocol (`src/src/chartly/chartly.py`,
classes `Plot` and `Multiplots`) against its natural-language
specification.

The Python code is shallowly embedded: the pure tiling arithmetic
becomes a Lean function on `Nat`, the stateful `Multiplots` composer
becomes explicit state passing over a small state record, and the
fallible parts of `render` (dictionary lookups that raise `KeyError`,
`assert` statements in the chart routines) return `Except`.
-/

namespace Chartly

/-- Embedding of `Multiplots.tiling` (chartly.py lines 597-614):

    if num < 5: return 1, num
    root = int(math.isqrt(num))
    if num == root**2: return root, root
    col = root + 1
    del_row = (col**2 - num) // col
    row = col - del_row
    return row, col

`math.isqrt` is the floor integer square root, i.e. `Nat.sqrt`, and
`//` is floor division, i.e. `Nat` division.  The Python locals are
inlined: `root` is `Nat.sqrt num`, `col` is `Nat.sqrt num + 1`,
`del_row` is `(col ^ 2 - num) / col` and `row` is `col - del_row`. -/
def tiling (num : Nat) : Nat × Nat :=
  if num < 5 then (1, num)
  else if num = Nat.sqrt num ^ 2 then (Nat.sqrt num, Nat.sqrt num)
  else
    (Nat.sqrt num + 1 - ((Nat.sqrt num + 1) ^ 2 - num) / (Nat.sqrt num + 1),
      Nat.sqrt num + 1)

/-- Modelled from the spec: the grid-planning arithmetic exactly as
spec section 4.1 words it ("`count < 5` returns `(rows=1, cols=count)`;
`count >= 5`: let `root = floor(sqrt(count))`; if `root*root == count`
return `(root, root)`; else `cols = root + 1`;
`deficit_rows = floor((cols*cols - count) / cols)`;
`rows = cols - deficit_rows`; return `(rows, cols)`").
Present only to compare with `tiling`, which is embedded from the code;
the locals `root`, `cols`, `deficit_rows` and `rows` are inlined. -/
def planSpec (count : Nat) : Nat × Nat :=
  if count < 5 then (1, count)
  else if Nat.sqrt count * Nat.sqrt count = count then (Nat.sqrt count, Nat.sqrt count)
  else
    (Nat.sqrt count + 1 -
        ((Nat.sqrt count + 1) * (Nat.sqrt count + 1) - count) / (Nat.sqrt count + 1),
      Nat.sqrt count + 1)

section TilingFacts

/-- Pin down a concrete value of `Nat.sqrt` from the two defining bounds. -/
lemma sqrt_val {n a : Nat} (h1 : a * a ≤ n) (h2 : n < (a + 1) * (a + 1)) :
    Nat.sqrt n = a :=
  (Nat.eq_sqrt.mpr ⟨h1, h2⟩).symm

/-- For `5 ≤ n` the square root of `n` is at least 2. -/
lemma two_le_sqrt {n : Nat} (h5 : 5 ≤ n) : 2 ≤ Nat.sqrt n :=
  Nat.le_sqrt.mpr (by omega)

/-- Complete case analysis of `tiling` for `5 ≤ n`, with the interval
facts each branch guarantees, phrased in terms of `root = Nat.sqrt n`:
either `n` is a perfect square and the grid is `(root, root)`, or the
quotient `del_row` is 0 and the grid is `(root+1, root+1)` with
`n` above `(root+1)*root`, or `del_row` is 1 and the grid is
`(root, root+1)` with `root*root < n ≤ root*(root+1)`. -/
lemma tiling_cases (n : Nat) (h5 : 5 ≤ n) :
    (tiling n = (Nat.sqrt n, Nat.sqrt n) ∧ n = Nat.sqrt n * Nat.sqrt n) ∨
    (tiling n = (Nat.sqrt n + 1, Nat.sqrt n + 1) ∧
      (Nat.sqrt n + 1) * Nat.sqrt n < n ∧ n < (Nat.sqrt n + 1) * (Nat.sqrt n + 1)) ∨
    (tiling n = (Nat.sqrt n, Nat.sqrt n + 1) ∧
      Nat.sqrt n * Nat.sqrt n < n ∧ n ≤ Nat.sqrt n * (Nat.sqrt n + 1)) := by
  have hle : Nat.sqrt n * Nat.sqrt n ≤ n := Nat.sqrt_le n
  have hlt : n < (Nat.sqrt n + 1) * (Nat.sqrt n + 1) := Nat.lt_succ_sqrt n
  have hnot5 : ¬ n < 5 := by omega
  set root := Nat.sqrt n with hroot
  have hexp : (root + 1) * (root + 1) = root * root + 2 * root + 1 := by ring
  have hmul : root * (root + 1) = root * root + root := by ring
  by_cases hsq : n = root ^ 2
  · left
    refine ⟨?_, by simpa [Nat.pow_two] using hsq⟩
    unfold tiling
    rw [if_neg hnot5, if_pos hsq]
  · have hstrict : root * root < n := by
      rcases Nat.lt_or_ge (root * root) n with h | h
      · exact h
      · exact absurd (le_antisymm hle h).symm (by simpa [Nat.pow_two] using hsq)
    right
    -- the numerator `col**2 - num` is strictly below `2 * col`
    have hbound : (root + 1) ^ 2 - n < 2 * (root + 1) := by
      rw [Nat.pow_two]
      omega
    by_cases hd : (root + 1) ^ 2 - n < root + 1
    · -- `del_row = 0`: the else branch returns `(col, col)`
      left
      have hdz : ((root + 1) ^ 2 - n) / (root + 1) = 0 := Nat.div_eq_of_lt hd
      refine ⟨?_, ?_, hlt⟩
      · unfold tiling
        rw [if_neg hnot5, if_neg hsq, hdz]
        simp [hroot]
      · have hd' := hd
        rw [Nat.pow_two, hexp] at hd'
        rw [show (root + 1) * root = root * root + root from by ring]
        omega
    · -- `del_row = 1`: the else branch returns `(col - 1, col) = (root, root + 1)`
      right
      push_neg at hd
      have hd1 : 1 ≤ ((root + 1) ^ 2 - n) / (root + 1) :=
        (Nat.le_div_iff_mul_le (by omega)).mpr (by simpa using hd)
      have hd2 : ((root + 1) ^ 2 - n) / (root + 1) < 2 :=
        (Nat.div_lt_iff_lt_mul (by omega)).mpr (by omega)
      have hdo : ((root + 1) ^ 2 - n) / (root + 1) = 1 := by omega
      have hnle : n ≤ root * (root + 1) := by
        have hd' := hd
        rw [Nat.pow_two, hexp] at hd'
        rw [hmul]
        omega
      refine ⟨?_, hstrict, hnle⟩
      unfold tiling
      rw [if_neg hnot5, if_neg hsq, hdo]
      simp [hroot]

/-- The planned grid never has fewer cells than subplots. -/
lemma tiling_capacity (n : Nat) : n ≤ (tiling n).1 * (tiling n).2 := by
  by_cases h5 : n < 5
  · unfold tiling
    rw [if_pos h5]
    simp
  · push_neg at h5
    rcases tiling_cases n h5 with ⟨ht, hn⟩ | ⟨ht, h1, h2⟩ | ⟨ht, h1, h2⟩ <;>
      rw [ht] <;> dsimp only <;> omega

/-- For `5 ≤ n` the planned grid is a rectangle with `rows ≤ cols`. -/
lemma tiling_rows_le_cols (n : Nat) (h5 : 5 ≤ n) : (tiling n).1 ≤ (tiling n).2 := by
  rcases tiling_cases n h5 with ⟨ht, _⟩ | ⟨ht, _, _⟩ | ⟨ht, _, _⟩ <;>
    rw [ht] <;> dsimp only <;> omega

/-- For `5 ≤ n` the planned grid is at most one row short of square. -/
lemma tiling_cols_sub_rows (n : Nat) (h5 : 5 ≤ n) :
    (tiling n).2 - (tiling n).1 = 0 ∨ (tiling n).2 - (tiling n).1 = 1 := by
  rcases tiling_cases n h5 with ⟨ht, _⟩ | ⟨ht, _, _⟩ | ⟨ht, _, _⟩ <;>
    rw [ht] <;> dsimp only <;> omega

/-- For `5 ≤ n` the planned grid has no completely empty row: dropping
one row would leave fewer than `n` cells. -/
lemma tiling_no_empty_row (n : Nat) (h5 : 5 ≤ n) :
    ((tiling n).1 - 1) * (tiling n).2 < n := by
  have hr2 : 2 ≤ Nat.sqrt n := two_le_sqrt h5
  have hsq4 : 2 * 2 ≤ Nat.sqrt n * Nat.sqrt n := Nat.mul_le_mul hr2 hr2
  rcases tiling_cases n h5 with ⟨ht, hn⟩ | ⟨ht, h1, h2⟩ | ⟨ht, h1, h2⟩ <;>
    rw [ht] <;> dsimp only
  · rw [Nat.sub_mul]
    omega
  · have h1' := h1
    rw [show (Nat.sqrt n + 1) * Nat.sqrt n = Nat.sqrt n * (Nat.sqrt n + 1) from by ring]
      at h1'
    simpa using h1'
  · rw [Nat.sub_mul]
    have hmul : Nat.sqrt n * (Nat.sqrt n + 1) = Nat.sqrt n * Nat.sqrt n + Nat.sqrt n := by
      ring
    omega

/-- For `5 ≤ n`, among all shapes `(r, c)` with `r ≤ c`, at least `n`
cells and no completely empty row, the planned shape minimizes `c - r`. -/
lemma tiling_min_diff (n : Nat) (h5 : 5 ≤ n) (r c : Nat) (hrc : r ≤ c)
    (hcap : n ≤ r * c) (hrow : (r - 1) * c < n) :
    ((tiling n).2 : Int) - ((tiling n).1 : Int) ≤ (c : Int) - (r : Int) := by
  have hrci : (r : Int) ≤ (c : Int) := by exact_mod_cast hrc
  rcases tiling_cases n h5 with ⟨ht, hn⟩ | ⟨ht, h1, h2⟩ | ⟨ht, h1, h2⟩ <;>
    rw [ht] <;> dsimp only
  · omega
  · omega
  · -- the grid is `(root, root+1)`: no shape in the family is square here
    have hrltc : r < c := by
      rcases Nat.lt_or_ge r c with h | h
      · exact h
      · exfalso
        have hrc2 : r = c := le_antisymm hrc h
        subst hrc2
        have hgt : Nat.sqrt n < r := by
          rcases Nat.lt_or_ge (Nat.sqrt n) r with h' | h'
          · exact h'
          · exfalso
            have hls : r * r ≤ Nat.sqrt n * Nat.sqrt n := Nat.mul_le_mul h' h'
            omega
        have hmono : Nat.sqrt n * (Nat.sqrt n + 1) ≤ (r - 1) * r :=
          Nat.mul_le_mul (by omega) (by omega)
        omega
    have : (r : Int) < (c : Int) := by exact_mod_cast hrltc
    push_cast
    omega

end TilingFacts

section ScratchExamples

lemma sqrt5 : Nat.sqrt 5 = 2 := sqrt_val (by norm_num) (by norm_num)

lemma sqrt9 : Nat.sqrt 9 = 3 := sqrt_val (by norm_num) (by norm_num)

lemma sqrt10 : Nat.sqrt 10 = 3 := sqrt_val (by norm_num) (by norm_num)

lemma sqrt16 : Nat.sqrt 16 = 4 := sqrt_val (by norm_num) (by norm_num)

lemma tiling5 : tiling 5 = (2, 3) := by simp [tiling, sqrt5]

lemma tiling9 : tiling 9 = (3, 3) := by simp [tiling, sqrt9]

lemma tiling10 : tiling 10 = (3, 4) := by simp [tiling, sqrt10]

lemma tiling16 : tiling 16 = (4, 4) := by simp [tiling, sqrt16]

lemma tiling1 : tiling 1 = (1, 1) := by simp [tiling]

lemma tiling2 : tiling 2 = (1, 2) := by simp [tiling]

end ScratchExamples

/-- C1: for every non-negative subplot count, the grid shape returned by
`Multiplots.tiling` satisfies `rows * cols ≥ count` — the planned grid
never has fewer cells than the number of subplots it must hold. -/
theorem C1_tiling_never_underallocates (n : Nat) :
    n ≤ (tiling n).1 * (tiling n).2 :=
  tiling_capacity n

/-- C2: `Multiplots.tiling` computes exactly the spec's arithmetic
(`planSpec`, transcribed from spec section 4.1), and in particular
`tiling 5 = (2,3)`, `tiling 9 = (3,3)`, `tiling 10 = (3,4)`,
`tiling 16 = (4,4)`. -/
theorem C2_tiling_matches_spec_arithmetic :
    (∀ n, tiling n = planSpec n) ∧ tiling 5 = (2, 3) ∧ tiling 9 = (3, 3) ∧
      tiling 10 = (3, 4) ∧ tiling 16 = (4, 4) := by
  refine ⟨?_, tiling5, tiling9, tiling10, tiling16⟩
  intro n
  by_cases h5 : n < 5
  · unfold tiling planSpec
    rw [if_pos h5, if_pos h5]
  · have hsq2 : (Nat.sqrt n * Nat.sqrt n = n) ↔ (n = Nat.sqrt n ^ 2) := by
      rw [Nat.pow_two]
      exact eq_comm
    unfold tiling planSpec
    rw [if_neg h5, if_neg h5]
    by_cases hsq : n = Nat.sqrt n ^ 2
    · rw [if_pos hsq, if_pos (hsq2.mpr hsq)]
    · rw [if_neg hsq, if_neg (fun h => hsq (hsq2.mp h)), Nat.pow_two]

/-- C3 counterexample: the claim quantifies over all shapes with
`rows * cols ≥ count`; at count 5 the shape `(5, 1)` holds 5 subplots
and has `cols - rows = -4`, strictly smaller than the `1` of
`tiling 5 = (2, 3)`, so the returned grid does not minimize
`cols - rows` over that family. -/
theorem C3_counterexample :
    tiling 5 = (2, 3) ∧ 5 ≤ 5 * 1 ∧
      ((1 : Int) - (5 : Int) < ((tiling 5).2 : Int) - ((tiling 5).1 : Int)) := by
  refine ⟨tiling5, by norm_num, ?_⟩
  rw [tiling5]
  norm_num

/-- C3 amended: for every count `n ≥ 5`, the shape returned by
`Multiplots.tiling` lies in the family of shapes `(r, c)` with
`r ≤ c`, `r * c ≥ n` and no completely empty row (`(r-1)*c < n`),
and it minimizes `c - r` within that family.  (The unrestricted
minimization in the original claim is false: tall thin shapes such as
`(n, 1)` make `cols - rows` arbitrarily negative, and for counts below
5 the single-row special case is not even square-minimal among
`r ≤ c` shapes.) -/
theorem C3_amended_tiling_as_square_as_possible (n : Nat) (h5 : 5 ≤ n) :
    ((tiling n).1 ≤ (tiling n).2 ∧ n ≤ (tiling n).1 * (tiling n).2 ∧
      ((tiling n).1 - 1) * (tiling n).2 < n) ∧
    ∀ r c : Nat, r ≤ c → n ≤ r * c → (r - 1) * c < n →
      ((tiling n).2 : Int) - ((tiling n).1 : Int) ≤ (c : Int) - (r : Int) :=
  ⟨⟨tiling_rows_le_cols n h5, tiling_capacity n, tiling_no_empty_row n h5⟩,
    fun r c hrc hcap hrow => tiling_min_diff n h5 r c hrc hcap hrow⟩

/-- C3 witness: the amended minimality applied at count 7 against the
square candidate shape `(3, 3)`. -/
theorem C3_amended_witness :
    5 ≤ 7 ∧ 3 ≤ 3 ∧ 7 ≤ 3 * 3 ∧ (3 - 1) * 3 < 7 ∧
      ((tiling 7).2 : Int) - ((tiling 7).1 : Int) ≤ (3 : Int) - (3 : Int) :=
  ⟨by norm_num, by norm_num, by norm_num, by norm_num,
    (C3_amended_tiling_as_square_as_possible 7 (by norm_num)).2 3 3
      (by norm_num) (by norm_num) (by norm_num)⟩

/-- C10: for every count `n ≥ 5` the shape `(rows, cols)` returned by
`Multiplots.tiling` satisfies `rows ≤ cols`, `cols - rows ∈ {0, 1}`
(at most one row short of square) and `(rows - 1) * cols < n` (no
completely empty row: dropping any row would under-allocate). -/
theorem C10_tiling_shape_invariants (n : Nat) (h5 : 5 ≤ n) :
    (tiling n).1 ≤ (tiling n).2 ∧
    ((tiling n).2 - (tiling n).1 = 0 ∨ (tiling n).2 - (tiling n).1 = 1) ∧
    ((tiling n).1 - 1) * (tiling n).2 < n :=
  ⟨tiling_rows_le_cols n h5, tiling_cols_sub_rows n h5, tiling_no_empty_row n h5⟩

/-- C10 witness: the shape invariants instantiated at count 10, where
`tiling 10 = (3, 4)`. -/
theorem C10_witness :
    5 ≤ 10 ∧ ((tiling 10).1 ≤ (tiling 10).2 ∧
      ((tiling 10).2 - (tiling 10).1 = 0 ∨ (tiling 10).2 - (tiling 10).1 = 1) ∧
      ((tiling 10).1 - 1) * (tiling 10).2 < 10) :=
  ⟨by norm_num, C10_tiling_shape_invariants 10 (by norm_num)⟩

/-! ## The `Multiplots` overlay composer

State and operations of `Multiplots` (chartly.py lines 437-614),
embedded as explicit state passing.  Python exceptions become
`Except PyError`; the external matplotlib calls (figure creation,
`add_subplot`, `suptitle`, `show`) have no effect on the composer's
own three fields and are not part of the state, but each successful
draw is recorded in a trace of `(grid position, instruction)` pairs. -/

/-- Python errors the embedded code paths can raise. -/
inductive PyError where
  | keyError (key : String)
  | assertionError (msg : String)
  | attributeError
  | typeError
  | indexError
  | valueError

/-- Nested Python list / numpy-array values, abstracted to what the
chart routines inspect: scalars and nested sequences of them. -/
inductive PyVal where
  | num (n : Int)
  | arr (elems : List PyVal)

/-- Number of dimensions in the numpy sense, taken along the first
element (model of `data_.ndim`; the concrete inputs used below are
rectangular, where this is exact). -/
def PyVal.ndim : PyVal → Nat
  | .num _ => 0
  | .arr [] => 1
  | .arr (x :: _) => 1 + x.ndim

/-- Ascending insertion of one value into a sorted list. -/
def insertSorted (x : Int) : List Int → List Int
  | [] => [x]
  | y :: ys => if x ≤ y then x :: y :: ys else y :: insertSorted x ys

/-- Ascending sort, the order `list.sort()` produces on a list of
numbers. -/
def sortInts : List Int → List Int
  | [] => []
  | x :: xs => insertSorted x (sortInts xs)

/-- Dataset handling of `Plot.line_plot` (lines 191-221): when the data
is 2-D it must be a pair of equal-length series
(`assert len(self.data) == 2`, `assert len(self.data[0]) == len(self.data[1])`);
the dataset itself is only read. -/
def linePlotCheck (data : PyVal) : Except PyError PyVal :=
  match data with
  | .num _ => .error .typeError
  | .arr [] => .error .indexError
  | .arr (.num _ :: _) => .ok data
  | .arr (.arr xs :: rest) =>
    match rest with
    | [.arr ys] =>
        if xs.length = ys.length then .ok data
        else .error (.assertionError "Data lengths must be equal")
    | [.num _] => .error .typeError
    | _ => .error (.assertionError "Data must contain both x and y list")

/-- Dataset handling of `Plot.contour` (lines 397-434):
`assert len(self.data) == 3` then `assert data_.ndim == 2` for each of
the three datasets; the dataset itself is only read. -/
def contourCheck (data : PyVal) : Except PyError PyVal :=
  match data with
  | .num _ => .error .typeError
  | .arr xs =>
    if xs.length = 3 then
      if xs.all fun v => v.ndim == 2 then .ok data
      else .error (.assertionError "Data must be a 2D numpy array")
    else .error (.assertionError "Contour plot requires 3 datasets")

/-- Dataset handling of `Plot.probability_plot` (lines 304-350): the
draw sorts `self.data` in place (`sample_data.sort()`, line 320), and
during the replay loop `self.data` aliases the instruction's dataset,
so the dataset object comes back sorted.  A scalar dataset fails at
`n = len(sample_data)` (line 315, before the sort) with `TypeError`. -/
def probPlotDraw (data : PyVal) : Except PyError PyVal :=
  match data with
  | .num _ => .error .typeError
  | .arr xs =>
    match xs.mapM (fun v => match v with | .num n => some n | _ => none) with
    | some nums => .ok (.arr ((sortInts nums).map PyVal.num))
    | none => .error .typeError

/-- Effect of one chart routine `self.graphs[plot_name]()` on
`self.data`, returning the state of the dataset object after the call.
`cdf`, `density`, `histogram`, `boxplot` and `normal_cdf` only read the
dataset (`np.sort` and `np.array` copy). -/
def applyGraph (plot_name : String) (data : PyVal) : Except PyError PyVal :=
  if plot_name = "line_plot" then linePlotCheck data
  else if plot_name = "contour" then contourCheck data
  else if plot_name = "probability_plot" then probPlotDraw data
  else .ok data

/-- One draw instruction as `Multiplots.overlay` (lines 493-511) stores
it: `[plot, data, axes_labels, customs]`.  Label and customization
dictionaries are opaque key/value lists here; the replay only passes
them to `update_defaults`, which fails before reading them. -/
structure Instr where
  plot : String
  data : PyVal
  axes_labels : List (String × PyVal)
  customs : List (String × PyVal)

/-- The value stored under one key of an `args` dictionary, abstracted
to the distinction `update_defaults` observes: only a dict has an
`.update` method. -/
inductive ArgVal where
  | pylist
  | pybool
  | pydict

/-- The `args` dictionary of a `Multiplots` instance:
`super().__init__({"data": [], "display": False})` (line 467), a list
under `"data"` and a bool under `"display"`. -/
def multiplotsArgs : List (String × ArgVal) :=
  [("data", .pylist), ("display", .pybool)]

/-- Embedding of `Plot.update_defaults` (lines 140-148) as called on
this `args` dictionary: `self.args[field].update(new_values)` raises
`KeyError` when `field` is not a key, and `AttributeError` when the
stored value has no `.update` (not a dict). -/
def update_defaults (args : List (String × ArgVal)) (field : String) :
    Except PyError Unit :=
  match args.lookup field with
  | none => .error (.keyError field)
  | some .pydict => .ok ()
  | some _ => .error .attributeError

/-- The keys of the `self.graphs` dispatch dictionary (lines 479-488). -/
def graphNames : List String :=
  ["cdf", "density", "histogram", "boxplot", "probability_plot",
   "line_plot", "contour", "normal_cdf"]

/-- The three state fields of `Multiplots` the composition protocol
uses: `subplot_count`, `subplots`, `current_subplot`. -/
structure MState where
  subplot_count : Nat
  subplots : List (List Instr)
  current_subplot : List Instr

/-- Composer state right after `Multiplots.__init__` (lines 476, 490-491). -/
def initMultiplots : MState :=
  { subplot_count := 0, subplots := [], current_subplot := [] }

/-- Embedding of `Multiplots.overlay` (lines 493-511): append the
instruction to the current bucket. -/
def overlay (args : Instr) (m : MState) : MState :=
  { m with current_subplot := m.current_subplot ++ [args] }

/-- Embedding of `Multiplots.new_subplot` (lines 513-522): increment
the counter unconditionally, seal the current bucket only when it is
non-empty, and reset the current bucket regardless. -/
def new_subplot (m : MState) : MState :=
  { subplot_count := m.subplot_count + 1,
    subplots :=
      if 0 < m.current_subplot.length then m.subplots ++ [m.current_subplot]
      else m.subplots,
    current_subplot := [] }

/-- The bucket list `render` replays: line 546 unconditionally appends
`current_subplot` to `subplots`, even when it is empty. -/
def renderBuckets (m : MState) : List (List Instr) :=
  m.subplots ++ [m.current_subplot]

/-- One iteration of the instruction loop in `Multiplots.__call__`
(lines 565-580): `update_defaults("axes_labels", overlay[2])`, then
`update_defaults(plot_name, overlay[3])`, then — inside the `try`
block — `self.graphs[plot_name]()`.  The `Bool` paired with an error
records whether the failure was raised inside the `try` (so that
`clear_axis` runs before re-raising) or outside it. -/
def replayStep (ins : Instr) : Except (PyError × Bool) PyVal :=
  match update_defaults multiplotsArgs "axes_labels" with
  | .error e => .error (e, false)
  | .ok _ =>
    match update_defaults multiplotsArgs ins.plot with
    | .error e => .error (e, false)
    | .ok _ =>
      if ins.plot ∈ graphNames then
        match applyGraph ins.plot ins.data with
        | .ok d => .ok d
        | .error e => .error (e, true)
      else .error (.keyError ins.plot, true)

/-- Replay every instruction of one bucket, in order, onto grid
position `pos`, collecting the successful draws. -/
def replayBucket (pos : Nat) : List Instr → Except (PyError × Bool) (List (Nat × Instr))
  | [] => .ok []
  | ins :: rest =>
    match replayStep ins with
    | .error eb => .error eb
    | .ok _ =>
      match replayBucket pos rest with
      | .error eb => .error eb
      | .ok tl => .ok ((pos, ins) :: tl)

/-- Argument validation of `self.fig.add_subplot(rows, cols, idx + 1)`
(lines 558-564): matplotlib builds a `GridSpec(rows, cols)`, which
requires both dimensions to be positive, and requires
`1 <= num <= rows * cols`; either violation raises `ValueError`.
These calls sit outside the `try` block, so their failures propagate
without running `clear_axis`. -/
def add_subplot (rows cols num : Nat) : Except PyError Unit :=
  if rows < 1 ∨ cols < 1 then .error .valueError
  else if num < 1 ∨ rows * cols < num then .error .valueError
  else .ok ()

/-- Replay the buckets in order onto consecutive grid positions:
for each bucket, first allocate its surface via `add_subplot`
(line 558/562/564, outside the `try`), then replay its instructions. -/
def replayAll (rows cols : Nat) (pos : Nat) :
    List (List Instr) → Except (PyError × Bool) (List (Nat × Instr))
  | [] => .ok []
  | b :: rest =>
    match add_subplot rows cols (pos + 1) with
    | .error e => .error (e, false)
    | .ok _ =>
      match replayBucket pos b with
      | .error eb => .error eb
      | .ok hd =>
        match replayAll rows cols (pos + 1) rest with
        | .error eb => .error eb
        | .ok tl => .ok (hd ++ tl)

/-- Result of a completed render: the grid shape handed to
`add_subplot` and the ordered trace of drawn instructions. -/
structure RenderOk where
  rows : Nat
  cols : Nat
  draws : List (Nat × Instr)

/-- Embedding of `Multiplots.__call__` (lines 524-590): seal the
current bucket unconditionally, compute the grid from
`tiling(subplot_count)`, replay every bucket, and reset the trackers
via `clear_axis` (lines 592-595) — but only on success or when the
failure was raised inside the `try` block; a failure raised outside it
(the `add_subplot` surface allocation and the `update_defaults` calls)
propagates with the trackers intact. -/
def render (m : MState) : Except PyError RenderOk × MState :=
  let buckets := renderBuckets m
  let shape := tiling m.subplot_count
  match replayAll shape.1 shape.2 0 buckets with
  | .ok draws =>
    (.ok { rows := shape.1, cols := shape.2, draws := draws }, initMultiplots)
  | .error (e, true) => (.error e, initMultiplots)
  | .error (e, false) =>
    (.error e,
      { subplot_count := m.subplot_count, subplots := buckets, current_subplot := [] })

/-- A call against the composer, for replaying whole call sequences. -/
inductive Op where
  | doOverlay (args : Instr)
  | doNewSubplot
  | doRender

/-- Run a sequence of calls from a state, collecting every `render`
outcome in order. -/
def applyOps (m : MState) : List Op → MState × List (Except PyError RenderOk)
  | [] => (m, [])
  | .doOverlay i :: ops => applyOps (overlay i m) ops
  | .doNewSubplot :: ops => applyOps (new_subplot m) ops
  | .doRender :: ops =>
    let r := render m
    let rest := applyOps r.2 ops
    (rest.1, r.1 :: rest.2)

/-- A cdf overlay instruction on a small numeric dataset. -/
def instrA : Instr := ⟨"cdf", .arr [.num 1, .num 2], [], []⟩

/-- A density overlay instruction on a small numeric dataset. -/
def instrB : Instr := ⟨"density", .arr [.num 3], [], []⟩

/-- A histogram overlay instruction on a small numeric dataset. -/
def instrC : Instr := ⟨"histogram", .arr [.num 4], [], []⟩

/-- A 2x2 two-dimensional dataset (`ndim = 2`). -/
def twoD : PyVal := .arr [.arr [.num 0, .num 0], .arr [.num 0, .num 0]]

/-- A contour instruction supplying only two 2-D datasets instead of
the required three. -/
def contourBad : Instr := ⟨"contour", .arr [twoD, twoD], [], []⟩

section ComposerScratch

example : update_defaults multiplotsArgs "axes_labels" = .error (.keyError "axes_labels") := rfl
example : update_defaults multiplotsArgs "cdf" = .error (.keyError "cdf") := rfl
example : update_defaults multiplotsArgs "data" = .error .attributeError := rfl
example (ins : Instr) : replayStep ins = .error (.keyError "axes_labels", false) := rfl
example : render initMultiplots
    = (.error .valueError,
       { subplot_count := 0, subplots := [[]], current_subplot := [] }) := rfl
example : render (new_subplot (new_subplot initMultiplots))
    = (.ok { rows := 1, cols := 2, draws := [] }, initMultiplots) := rfl
example : render (overlay instrA initMultiplots)
    = (.error .valueError,
       { subplot_count := 0, subplots := [[instrA]], current_subplot := [] }) := rfl
example : render (new_subplot (overlay instrA initMultiplots))
    = (.error (.keyError "axes_labels"),
       { subplot_count := 1, subplots := [[instrA], []], current_subplot := [] }) := rfl
example : probPlotDraw (.arr [.num 2, .num 1]) = .ok (.arr [.num 1, .num 2]) := rfl
example : contourCheck (.arr [twoD, twoD])
    = .error (.assertionError "Contour plot requires 3 datasets") := rfl
example : contourCheck (.arr [twoD, twoD, twoD]) = .ok (.arr [twoD, twoD, twoD]) := rfl

end ComposerScratch

/-- Sealing a bucket via `new_subplot` moves the current bucket into
`subplots` unchanged whenever it is non-empty. -/
lemma new_subplot_seals (m : MState) (h : 0 < m.current_subplot.length) :
    (new_subplot m).subplots = m.subplots ++ [m.current_subplot] := by
  simp [new_subplot, h]

/-- `linePlotCheck` never alters the dataset it accepts. -/
lemma linePlotCheck_preserves {d d' : PyVal} (h : linePlotCheck d = .ok d') :
    d' = d := by
  unfold linePlotCheck at h
  split at h
  all_goals try split at h
  all_goals try split at h
  all_goals (cases h <;> rfl)

/-- `contourCheck` never alters the dataset it accepts. -/
lemma contourCheck_preserves {d d' : PyVal} (h : contourCheck d = .ok d') :
    d' = d := by
  unfold contourCheck at h
  split at h
  all_goals try split at h
  all_goals try split at h
  all_goals (cases h <;> rfl)

/-- Every chart routine other than `probability_plot` returns the
dataset object unchanged. -/
lemma applyGraph_preserves {k : String} {d d' : PyVal}
    (hk : k ≠ "probability_plot") (h : applyGraph k d = .ok d') : d' = d := by
  unfold applyGraph at h
  rw [if_neg hk] at h
  split_ifs at h with h1 h2
  · exact linePlotCheck_preserves h
  · exact contourCheck_preserves h
  · injection h with h1
    exact h1.symm

/-- C4 counterexample: for `overlay(A); new_subplot(); overlay(B);
overlay(C); render()` the code computes the grid from
`subplot_count = 1` (the final seal in `render` does not increment the
counter), so the grid is `tiling 1 = (1, 1)`, not the claimed
`plan(2) = (1, 2)`; moreover `render` raises `KeyError` from
`update_defaults` before replaying a single instruction. -/
theorem C4_counterexample :
    render (overlay instrC (overlay instrB (new_subplot (overlay instrA initMultiplots))))
        = (.error (.keyError "axes_labels"),
           { subplot_count := 1, subplots := [[instrA], [instrB, instrC]],
             current_subplot := [] }) ∧
    (overlay instrC (overlay instrB (new_subplot (overlay instrA
        initMultiplots)))).subplot_count = 1 ∧
    tiling 1 = (1, 1) ∧ ((1, 1) : Nat × Nat) ≠ ((1, 2) : Nat × Nat) := by
  refine ⟨rfl, rfl, tiling1, ?_⟩
  decide

/-- C4 amended: the sequence seals exactly the two buckets `[A]` and
`[B, C]`, in that order; `render` computes the grid shape from
`subplot_count = 1` — giving `tiling 1 = (1, 1)`, since only
`new_subplot` increments the counter — and then fails with
`KeyError("axes_labels")` from `update_defaults` before drawing
anything, leaving the two sealed buckets in place. -/
theorem C4_amended_two_bucket_replay (A B C : Instr) :
    renderBuckets (overlay C (overlay B (new_subplot (overlay A initMultiplots))))
        = [[A], [B, C]] ∧
    (overlay C (overlay B (new_subplot (overlay A initMultiplots)))).subplot_count
        = 1 ∧
    render (overlay C (overlay B (new_subplot (overlay A initMultiplots))))
        = (.error (.keyError "axes_labels"),
           { subplot_count := 1, subplots := [[A], [B, C]], current_subplot := [] }) :=
  ⟨rfl, rfl, rfl⟩

/-- C5 (evidence of the code bug): `render` on a composer holding the
single sealed bucket `[instrA]` fails with `KeyError("axes_labels")`
raised by `update_defaults` at line 570 — outside the `try`/`except`
of lines 576-580 — so `clear_axis` never runs and the exception
propagates while `subplot_count` is still 1 and the bucket is still
sealed: the state is not reset, contradicting the claim that every
failure during `render()` resets state before propagating. -/
theorem C5_failure_propagates_without_reset :
    render (new_subplot (overlay instrA initMultiplots))
        = (.error (.keyError "axes_labels"),
           { subplot_count := 1, subplots := [[instrA], []], current_subplot := [] }) ∧
    ({ subplot_count := 1, subplots := [[instrA], []], current_subplot := [] } : MState)
        ≠ initMultiplots := by
  refine ⟨rfl, ?_⟩
  simp [initMultiplots]

/-- C6: after a `render` that completes, the composer state equals the
freshly-constructed state, so every subsequent call sequence behaves
exactly as it would on a new instance. -/
theorem C6_completed_render_resets_composer (m : MState) (res : RenderOk)
    (post : MState) (ops : List Op) (h : render m = (.ok res, post)) :
    post = initMultiplots ∧ applyOps post ops = applyOps initMultiplots ops := by
  have hpost : post = initMultiplots := by
    simp only [render] at h
    cases hall : replayAll (tiling m.subplot_count).1 (tiling m.subplot_count).2 0
        (renderBuckets m) with
    | ok draws =>
        rw [hall] at h
        exact (congrArg Prod.snd h).symm
    | error eb =>
        obtain ⟨e, b⟩ := eb
        cases b <;> rw [hall] at h <;> simp at h
  subst hpost
  exact ⟨rfl, rfl⟩

/-- C6 witness: two empty `new_subplot` calls followed by `render`
complete successfully (no instruction is replayed), and the theorem
applied there gives back the fresh state and fresh behavior on a
follow-up overlay/new_subplot/render sequence. -/
theorem C6_witness :
    (render (new_subplot (new_subplot initMultiplots))).2 = initMultiplots ∧
    applyOps (render (new_subplot (new_subplot initMultiplots))).2
        [Op.doOverlay instrA, Op.doNewSubplot, Op.doRender]
      = applyOps initMultiplots [Op.doOverlay instrA, Op.doNewSubplot, Op.doRender] :=
  C6_completed_render_resets_composer (new_subplot (new_subplot initMultiplots))
    { rows := 1, cols := 2, draws := [] }
    (render (new_subplot (new_subplot initMultiplots))).2
    [Op.doOverlay instrA, Op.doNewSubplot, Op.doRender] rfl

/-- C7: `new_subplot` increments the subplot counter unconditionally,
seals the current bucket into the composition only when it is
non-empty, and resets the current bucket in either case; the final
seal performed by `render` (`renderBuckets`, line 546) appends the
current bucket even when it is empty. -/
theorem C7_seal_asymmetry (m : MState) :
    (new_subplot m).subplot_count = m.subplot_count + 1 ∧
    (new_subplot m).subplots =
      (if 0 < m.current_subplot.length then m.subplots ++ [m.current_subplot]
       else m.subplots) ∧
    (new_subplot m).current_subplot = [] ∧
    renderBuckets m = m.subplots ++ [m.current_subplot] :=
  ⟨rfl, rfl, rfl, rfl⟩

/-- C8 (evidence of the code bug): a contour instruction with only two
2-D datasets would fail the in-repo shape check
(`assert len(self.data) == 3`, the spec's `DataShapeError`), but for
`overlay(contour_bad); new_subplot(); render()` the replay never
reaches it: the surface for bucket 0 is allocated on the valid
`tiling 1 = (1, 1)` grid and then `update_defaults` raises
`KeyError("axes_labels")` — outside the `try` — before the contour
routine is dispatched, leaving the trackers un-reset; the claimed
follow-up `overlay(); new_subplot(); render()` sequence on the same
composer then fails the same way instead of succeeding. -/
theorem C8_contour_failure_behavior :
    contourCheck (PyVal.arr [twoD, twoD])
        = .error (.assertionError "Contour plot requires 3 datasets") ∧
    render (new_subplot (overlay contourBad initMultiplots))
        = (.error (.keyError "axes_labels"),
           { subplot_count := 1, subplots := [[contourBad], []],
             current_subplot := [] }) ∧
    (render (new_subplot (overlay instrA
        { subplot_count := 1, subplots := [[contourBad], []],
          current_subplot := [] }))).1
        = .error (.keyError "axes_labels") :=
  ⟨rfl, rfl, rfl⟩

/-- `add_subplot` either succeeds or raises `ValueError`. -/
lemma add_subplot_cases (rows cols num : Nat) :
    add_subplot rows cols num = .ok () ∨
    add_subplot rows cols num = .error .valueError := by
  unfold add_subplot
  split_ifs <;> simp

/-- A bucket replay either finds the bucket empty and draws nothing, or
dies on the bucket's first instruction with the `update_defaults`
`KeyError`, raised outside the `try` block. -/
lemma replayBucket_outcomes (pos : Nat) (b : List Instr) :
    (b = [] ∧ replayBucket pos b = .ok []) ∨
    replayBucket pos b = .error (.keyError "axes_labels", false) := by
  cases b with
  | nil => exact Or.inl ⟨rfl, rfl⟩
  | cons ins tl => exact Or.inr rfl

/-- The whole replay of this composer either draws nothing, or fails
with the `update_defaults` `KeyError`, or fails with the `add_subplot`
`ValueError`; every failure carries the `false` flag (outside the
`try`, so no reset). -/
lemma replayAll_outcomes (rows cols : Nat) (bs : List (List Instr)) :
    ∀ pos : Nat,
      replayAll rows cols pos bs = .ok [] ∨
      replayAll rows cols pos bs = .error (.keyError "axes_labels", false) ∨
      replayAll rows cols pos bs = .error (.valueError, false) := by
  induction bs with
  | nil => exact fun pos => Or.inl rfl
  | cons b rest ih =>
    intro pos
    unfold replayAll
    rcases add_subplot_cases rows cols (pos + 1) with ha | ha <;> rw [ha]
    · rcases replayBucket_outcomes pos b with ⟨hb0, hb⟩ | hb <;> rw [hb]
      · rcases ih (pos + 1) with h | h | h <;> rw [h]
        · exact Or.inl rfl
        · exact Or.inr (Or.inl rfl)
        · exact Or.inr (Or.inr rfl)
      · exact Or.inr (Or.inl rfl)
    · exact Or.inr (Or.inr rfl)

/-- C9: every DrawInstruction is immutable once appended by `overlay`:
`overlay` only appends (all prior instructions untouched),
`new_subplot` moves the sealed bucket whole, and `render` either
completes with an empty draw trace (no instruction was ever replayed)
or fails outside the `try` block with the sealed buckets verbatim in
the post state.  In this copy the replay aborts at
`update_defaults("axes_labels", ...)` before dispatching any chart
routine, so even the in-place sort inside `Plot.probability_plot`
(line 320, which would mutate the aliased dataset if reached) is
unreachable from the composer, and no later operation modifies an
instruction or its dataset. -/
theorem C9_instructions_never_mutated (m : MState) (i : Instr) :
    (overlay i m).subplots = m.subplots ∧
    (overlay i m).current_subplot = m.current_subplot ++ [i] ∧
    (new_subplot m).subplots =
      (if 0 < m.current_subplot.length then m.subplots ++ [m.current_subplot]
       else m.subplots) ∧
    (new_subplot m).current_subplot = [] ∧
    replayStep i = .error (.keyError "axes_labels", false) ∧
    (render m = (.ok { rows := (tiling m.subplot_count).1,
                       cols := (tiling m.subplot_count).2, draws := [] },
                 initMultiplots) ∨
     render m = (.error (.keyError "axes_labels"),
                 { subplot_count := m.subplot_count, subplots := renderBuckets m,
                   current_subplot := [] }) ∨
     render m = (.error .valueError,
                 { subplot_count := m.subplot_count, subplots := renderBuckets m,
                   current_subplot := [] })) := by
  refine ⟨rfl, rfl, rfl, rfl, rfl, ?_⟩
  rcases replayAll_outcomes (tiling m.subplot_count).1 (tiling m.subplot_count).2
      (renderBuckets m) 0 with h | h | h
  · left
    simp only [render]
    rw [h]
  · right; left
    simp only [render]
    rw [h]
  · right; right
    simp only [render]
    rw [h]

end Chartly
